import Mathlib

/-!
Shallow embedding of the `contract-callgraph` Rust library (src/lib.rs):
the `eth` domain model (`Address`, `Account`, `Contract`) and the URL
construction of the `etherscan` client. Rust strings are modelled at
character granularity as lists of characters (every value the library
handles is ASCII, where byte length and character count coincide);
`usize` values are modelled as `Nat` (no arithmetic here comes near the
word size); `Vec<u8>` is a list of naturals. The HTTP agent performs I/O
and is outside the model: the client is embedded down to the URL string
each method requests.
-/

/-- Rust strings, modelled as lists of characters. -/
abbrev RustString := List Char

namespace eth

/-- Rust enum `eth::Errors` (src/lib.rs lines 9-19). -/
inductive Errors where
  | AddressNotPrefixed (s : RustString)
  | AddressIncorrectLength (s : RustString) (len : Nat)
  | NotAContract (s : RustString)
  deriving DecidableEq

/-- Rust `pub struct Address(String)` (line 23). -/
structure Address where
  val : RustString
  deriving DecidableEq

/-- Rust `impl TryFrom<String> for Address` (lines 33-48):
reject unless the string starts with `0x`, then reject unless its length
is exactly 42, else wrap it. -/
def Address.try_from_string (addr : RustString) : Except Errors Address :=
  if !(List.isPrefixOf ['0', 'x'] addr) then
    .error (.AddressNotPrefixed addr)
  else
    let len := addr.length
    if len ≠ 42 then
      .error (.AddressIncorrectLength addr len)
    else
      .ok ⟨addr⟩

/-- Rust `impl TryFrom<&str> for Address` (lines 25-31):
`addr.to_owned().try_into()` delegates to the `String` implementation;
`to_owned` preserves the contents, and the two Rust string types collapse
to the same model type here. -/
def Address.try_from_str (addr : RustString) : Except Errors Address :=
  Address.try_from_string addr

/-- Rust `impl fmt::Display for Address` (lines 50-55): writes the wrapped
string as is. -/
def Address.display (a : Address) : RustString :=
  a.val

/-- Rust `pub struct Account` (lines 58-63). -/
structure Account where
  address : Address
  nonce : Nat
  balance : Nat
  code : List Nat
  deriving DecidableEq

/-- Rust `Account::new` (lines 84-91). -/
def Account.new (address : Address) (nonce : Nat) (balance : Nat)
    (code : List Nat) : Account :=
  ⟨address, nonce, balance, code⟩

/-- Rust `Account::is_eoa` (lines 93-95): `self.code.len() == 0`. -/
def Account.is_eoa (a : Account) : Bool :=
  a.code.length == 0

/-- Decimal rendering of a `usize`, as the Rust `Display` implementation
for integers prints it inside `format!`. -/
def usize_display (n : Nat) : RustString :=
  Nat.toDigits 10 n

/-- Rust `impl fmt::Display for Account` (lines 65-75): the format string
`"{} @ {} ({} ETH)"` applied to the EOA/Contract tag, the address, and
`self.balance / 10usize.pow(8)` (integer division). -/
def Account.display (a : Account) : RustString :=
  (if a.is_eoa then "EOA".toList else "Contract".toList)
    ++ " @ ".toList ++ a.address.display
    ++ " (".toList ++ usize_display (a.balance / 10 ^ 8) ++ " ETH)".toList

/-- Rust `pub struct Contract` (lines 98-104). -/
structure Contract where
  account : Account
  name : Option RustString
  abi : Option RustString
  source : Option RustString
  bytecode : RustString
  deriving DecidableEq

/-- Rust `Contract::new` (lines 107-125): fails with `NotAContract`
carrying the account's display string when `bytecode.len() == 0`, else
builds the record. -/
def Contract.new (account : Account) (bytecode : RustString)
    (source : Option RustString) (abi : Option RustString)
    (name : Option RustString) : Except Errors Contract :=
  if bytecode.length == 0 then
    .error (.NotAContract account.display)
  else
    .ok ⟨account, name, abi, source, bytecode⟩

end eth

namespace etherscan

/-- Rust constant `ETHERSCAN_URL` (line 138). -/
def ETHERSCAN_URL : RustString :=
  "https://api.etherscan.io/api".toList

/-- Rust `etherscan::Client` (lines 171-175). The `ureq::Agent` field
performs the I/O and is outside the model, which covers the stored key
and the URL arithmetic. -/
structure Client where
  apikey : RustString
  url : RustString
  deriving DecidableEq

/-- Rust `Client::new_with_custom_http` (lines 193-196):
`url = format!("{}?apikey={}", ETHERSCAN_URL, apikey)`. -/
def Client.new_with_custom_http (apikey : RustString) : Client :=
  ⟨apikey, ETHERSCAN_URL ++ "?apikey=".toList ++ apikey⟩

/-- Rust `Client::new` (lines 180-186): builds the default five-second
agent and delegates to `new_with_custom_http`; the stored URL is the
same. -/
def Client.new (apikey : RustString) : Client :=
  Client.new_with_custom_http apikey

/-- The URL that Rust `Client::get_source_code` (lines 210-217) requests:
`format!("{}/&module=contract&action=getsourcecode&address={}", self.url, addr)`
where `addr` renders through `Address`'s `Display`. -/
def Client.get_source_code_url (c : Client) (addr : eth.Address) : RustString :=
  c.url ++ "/&module=contract&action=getsourcecode&address=".toList ++ addr.display

/-- The URL that Rust `Client::get_abi` (lines 219-226) requests:
`format!("{}/&module=contract&action=getsourcecode&address={}", self.url, addr)`. -/
def Client.get_abi_url (c : Client) (addr : eth.Address) : RustString :=
  c.url ++ "/&module=contract&action=getsourcecode&address=".toList ++ addr.display

end etherscan

/-- Concrete inputs used by the closed instance theorems below. -/
def sample_not_prefixed : RustString :=
  "hello".toList

/-- Concrete input whose first check passes and second fails: starts with
`0x` but has length 5. -/
def sample_short : RustString :=
  "0xabc".toList

/-- Concrete input that fails both checks: no `0x` and length 5. -/
def sample_both_bad : RustString :=
  "abcde".toList

/-- Concrete 42-character `0x`-string whose body is not hexadecimal. -/
def sample_non_hex : RustString :=
  '0' :: 'x' :: List.replicate 40 'Z'

/-- Concrete 42-character `0x`-string of lowercase hex characters. -/
def sample_addr : RustString :=
  '0' :: 'x' :: List.replicate 40 'a'

/-- Concrete API key for the client instance theorems. -/
def sample_key : RustString :=
  "KEY".toList

/-- C1: every input string that does not start with `0x` makes
`Address::try_from<String>` return `AddressNotPrefixed` carrying the
original string unchanged. -/
theorem address_not_prefixed_error (s : RustString)
    (h : List.isPrefixOf ['0', 'x'] s = false) :
    eth.Address.try_from_string s = .error (.AddressNotPrefixed s) := by
  simp [eth.Address.try_from_string, h]

theorem address_not_prefixed_error_witness :
    eth.Address.try_from_string sample_not_prefixed
      = .error (.AddressNotPrefixed sample_not_prefixed) :=
  address_not_prefixed_error sample_not_prefixed (by decide)

/-- C2: every input string that starts with `0x` but whose length is not
42 makes `Address::try_from<String>` return `AddressIncorrectLength`
carrying the original string and its actual length; and the prefix check
runs first, so a string failing both checks gets the prefix error. -/
theorem address_incorrect_length_error (s : RustString)
    (h1 : List.isPrefixOf ['0', 'x'] s = true) (h2 : s.length ≠ 42) :
    eth.Address.try_from_string s
        = .error (.AddressIncorrectLength s s.length) ∧
      ∀ t : RustString, t.length ≠ 42 →
        List.isPrefixOf ['0', 'x'] t = false →
          eth.Address.try_from_string t = .error (.AddressNotPrefixed t) := by
  refine ⟨?_, ?_⟩
  · simp [eth.Address.try_from_string, h1, h2]
  · intro t _ ht
    simp [eth.Address.try_from_string, ht]

theorem address_incorrect_length_error_witness :
    eth.Address.try_from_string sample_short
        = .error (.AddressIncorrectLength sample_short sample_short.length) ∧
      eth.Address.try_from_string sample_both_bad
        = .error (.AddressNotPrefixed sample_both_bad) := by
  have h := address_incorrect_length_error sample_short (by decide) (by decide)
  exact ⟨h.1, h.2 sample_both_bad (by decide) (by decide)⟩

/-- C3: every string of length exactly 42 starting with `0x` constructs
an `Address` successfully, with no character-set validation of the
remaining 40 characters. -/
theorem address_valid_constructs (s : RustString)
    (h1 : List.isPrefixOf ['0', 'x'] s = true) (h2 : s.length = 42) :
    eth.Address.try_from_string s = .ok ⟨s⟩ := by
  simp [eth.Address.try_from_string, h1, h2]

theorem address_valid_constructs_witness :
    eth.Address.try_from_string sample_non_hex = .ok ⟨sample_non_hex⟩ :=
  address_valid_constructs sample_non_hex (by decide) (by decide)

/-- C4: round-trip — constructing an `Address` from a valid 42-character
`0x`-string and rendering it through `Display` yields the original
string. -/
theorem address_roundtrip (s : RustString)
    (h1 : List.isPrefixOf ['0', 'x'] s = true) (h2 : s.length = 42) :
    ∃ a : eth.Address,
      eth.Address.try_from_string s = .ok a ∧ a.display = s := by
  refine ⟨⟨s⟩, ?_, rfl⟩
  simp [eth.Address.try_from_string, h1, h2]

theorem address_roundtrip_witness :
    ∃ a : eth.Address,
      eth.Address.try_from_string sample_addr = .ok a ∧
        a.display = sample_addr :=
  address_roundtrip sample_addr (by decide) (by decide)

/-- Helper shared by the account theorems: the boolean `is_eoa` holds
exactly on empty code. -/
theorem eth.Account.is_eoa_iff (a : eth.Account) :
    a.is_eoa = true ↔ a.code = [] := by
  simp [eth.Account.is_eoa, List.length_eq_zero]

/-- C5: `Account::is_eoa` returns true exactly when the account's code
byte sequence is empty. -/
theorem is_eoa_iff_code_empty (a : eth.Account) :
    a.is_eoa = true ↔ a.code = [] :=
  eth.Account.is_eoa_iff a

/-- C6: the `Display` rendering of an `Account` is
tag, " @ ", address, then the balance divided by 10^8 with integer
division in "( _ ETH)"; in particular balance 800000000 with empty code
renders as "EOA @ <address> (8 ETH)". -/
theorem account_display_correct :
    (∀ (addr : eth.Address) (nonce : Nat),
      (eth.Account.new addr nonce 800000000 []).display
        = "EOA @ ".toList ++ addr.display ++ " (8 ETH)".toList) ∧
    (∀ a : eth.Account,
      a.display
        = (if a.code = [] then "EOA".toList else "Contract".toList)
          ++ " @ ".toList ++ a.address.display ++ " (".toList
          ++ Nat.toDigits 10 (a.balance / 100000000) ++ " ETH)".toList) := by
  constructor
  · intro addr nonce
    show "EOA".toList ++ " @ ".toList ++ addr.display ++ " (".toList
        ++ eth.usize_display (800000000 / 10 ^ 8) ++ " ETH)".toList = _
    simp only [List.append_assoc]
    rfl
  · intro a
    have hpow : (10 : Nat) ^ 8 = 100000000 := by norm_num
    rw [eth.Account.display, eth.usize_display, hpow]
    by_cases h : a.code = []
    · rw [if_pos ((eth.Account.is_eoa_iff a).mpr h), if_pos h]
    · rw [if_neg (fun hb => h ((eth.Account.is_eoa_iff a).mp hb)), if_neg h]

/-- C7: `Contract::new` fails with `NotAContract` carrying the account's
display string exactly when the supplied bytecode is empty, and succeeds
exactly when it is non-empty, for every account (its own code field has
no influence). -/
theorem contract_new_not_a_contract_iff (account : eth.Account)
    (bytecode : RustString) (source abi name : Option RustString) :
    (eth.Contract.new account bytecode source abi name
        = .error (.NotAContract account.display) ↔ bytecode = []) ∧
      ((eth.Contract.new account bytecode source abi name).isOk = true
        ↔ bytecode ≠ []) := by
  rcases bytecode with _ | ⟨c, cs⟩ <;>
    simp [eth.Contract.new, Except.isOk, Except.toBool]

/-- C8 as stated is false: the URL `get_source_code` builds is not the
base URL extended with exactly the query parameters
`module=contract&action=getsourcecode&address=<address>` — at the
concrete key "KEY" and address `sample_addr` the built URL carries a
stray "/" before the first parameter separator. -/
theorem get_source_code_url_counterexample :
    ¬ ((etherscan.Client.new_with_custom_http sample_key).get_source_code_url
          ⟨sample_addr⟩
        = etherscan.ETHERSCAN_URL ++ "?apikey=".toList ++ sample_key
          ++ "&module=contract&action=getsourcecode&address=".toList
          ++ sample_addr) := by
  decide

/-- C8 amended: for every API key and address, `get_source_code` requests
the base URL (endpoint with the key embedded as a query parameter)
extended with the literal "/&module=contract&action=getsourcecode&address="
followed by the address — the query parameters are preceded by a stray
"/" so the `apikey` parameter's value ends in "/". -/
theorem get_source_code_url_eq (apikey : RustString) (addr : eth.Address) :
    (etherscan.Client.new_with_custom_http apikey).get_source_code_url addr
      = etherscan.ETHERSCAN_URL ++ "?apikey=".toList ++ apikey
        ++ "/&module=contract&action=getsourcecode&address=".toList
        ++ addr.display :=
  rfl

/-- C9: for every client and address, `get_abi` builds a URL string
identical to the one `get_source_code` builds (same
`module=contract&action=getsourcecode` query, not an ABI-specific
action). -/
theorem get_abi_url_eq_get_source_code_url (c : etherscan.Client)
    (addr : eth.Address) :
    c.get_abi_url addr = c.get_source_code_url addr :=
  rfl

/-- C10: the two `Address` constructors agree — `try_from` on a borrowed
string returns exactly the same result as `try_from` on the owned string,
since the borrowed implementation delegates to the owned one. -/
theorem try_from_str_eq_try_from_string (s : RustString) :
    eth.Address.try_from_str s = eth.Address.try_from_string s :=
  rfl
